import Mathlib

/-!
Verification of `target_sherpaan/client.py` (`SherpaClient`).

The client is embedded shallowly:

* Parsed XML values (the output of `xmltodict.parse`) are modelled by the
  inductive type `XVal`: Python `None`, strings, dictionaries (ordered
  association lists, as `xmltodict` returns `OrderedDict`) and lists.
* Python truthiness, the `in` operator, subscripting and `str` methods are
  modelled by the `py`-prefixed helpers; operations that can throw a Python
  exception return `Except Unit`.
* The XML parser `xmltodict.parse` is external to the repository, so its
  outcome is a parameter: `none` models a raised parse exception, `some d`
  a successfully parsed top-level dictionary.
* The HTTP transport (`requests`) is likewise a parameter; a response is a
  status code plus body text, and `raise_for_status` follows the documented
  `requests` behaviour (raise exactly for status codes 400-599).
* The `tenacity` retry decorator `@retry(stop=stop_after_attempt(3),
  wait=wait_exponential(multiplier=1, min=4, max=10))` is modelled by
  `call_soap_service`, which runs up to three attempts and records the wait
  computed before each re-attempt.  `reraise` is left at its default
  `False`, so on exhaustion tenacity raises a `tenacity.RetryError`
  wrapping the last attempt's exception rather than that exception itself;
  the `RaisedError` type distinguishes the two shapes of error a caller
  can observe.
-/

set_option autoImplicit false

namespace Sherpaan

/-- A parsed XML value as produced by `xmltodict.parse`: Python `None`, a
string, an ordered dictionary (association list) or a list. -/
inductive XVal where
  | null : XVal
  | str : String → XVal
  | obj : List (String × XVal) → XVal
  | list : List XVal → XVal

/-- Python truthiness of an `XVal`: `None`, `""`, `{}` and `[]` are falsy. -/
def XVal.truthy : XVal → Bool
  | XVal.null => false
  | XVal.str s => !s.data.isEmpty
  | XVal.obj kvs => !kvs.isEmpty
  | XVal.list l => !l.isEmpty

/-- `isinstance(v, dict)`. -/
def XVal.is_mapping : XVal → Bool
  | XVal.obj _ => true
  | _ => false

/-- First-match lookup in a Python dictionary (`d[k]` guarded by `k in d`). -/
def dict_get (kvs : List (String × XVal)) (k : String) : Option XVal :=
  (kvs.find? (fun p => p.1 == k)).map (fun p => p.2)

/-- Substring test on character lists (Python `pat in s` for strings). -/
def list_contains_sub (l pat : List Char) : Bool :=
  match l with
  | [] => pat.isEmpty
  | c :: rest => pat.isPrefixOf (c :: rest) || list_contains_sub rest pat

/-- Python `s.endswith(suffix)`. -/
def py_endswith (s suffix : String) : Bool :=
  suffix.data.isSuffixOf s.data

/-- Python `k in v`.  Dictionary: key membership; string: substring test;
list: element equality; `None`: raises `TypeError` (modelled as `error`). -/
def py_in (k : String) (v : XVal) : Except Unit Bool :=
  match v with
  | XVal.null => Except.error ()
  | XVal.str s => Except.ok (list_contains_sub s.data k.data)
  | XVal.obj kvs => Except.ok (kvs.any (fun p => p.1 == k))
  | XVal.list l =>
      Except.ok (l.any (fun x => match x with | XVal.str s => s == k | _ => false))

/-- Python `v[k]` with a string key: succeeds only on dictionaries that hold
the key; subscripting a string, list or `None` by a string raises. -/
def py_index (v : XVal) (k : String) : Except Unit XVal :=
  match v with
  | XVal.obj kvs =>
      match (kvs.find? (fun p => p.1 == k)) with
      | some p => Except.ok p.2
      | none => Except.error ()
  | _ => Except.error ()

/-- Truthiness of the `soap_body` variable, which is `None` before the first
assignment (`Option.none`) and an `XVal` afterwards. -/
def opt_truthy : Option XVal → Bool
  | none => false
  | some v => XVal.truthy v

/-- Envelope key candidates tried by `_parse_soap_response` (client.py:127). -/
def envelope_keys : List String := ["soap:Envelope", "soap12:Envelope", "Envelope"]

/-- Body key candidates tried by `_parse_soap_response` (client.py:130). -/
def body_keys : List String := ["soap:Body", "soap12:Body", "Body"]

/-- The inner loop of client.py:130-133: try each body key in order; on the
first key contained in `envelope`, subscript and stop.  `ok none` means no
candidate key was present, `error` that `in` or the subscript raised. -/
def first_present (envelope : XVal) : List String → Except Unit (Option XVal)
  | [] => Except.ok none
  | k :: ks =>
      match py_in k envelope with
      | Except.error e => Except.error e
      | Except.ok true =>
          match py_index envelope k with
          | Except.error e => Except.error e
          | Except.ok x => Except.ok (some x)
      | Except.ok false => first_present envelope ks

/-- The outer loop of client.py:126-135 over envelope keys.  `cur` is the
current value of the `soap_body` variable; the loop stops early as soon as
`soap_body` is truthy after visiting a present envelope key. -/
def find_soap_body_go (xmlDict : List (String × XVal)) :
    List String → Option XVal → Except Unit (Option XVal)
  | [], cur => Except.ok cur
  | k :: ks, cur =>
      match dict_get xmlDict k with
      | none => find_soap_body_go xmlDict ks cur
      | some env =>
          match first_present env body_keys with
          | Except.error e => Except.error e
          | Except.ok found =>
              let cur2 := match found with | some b => some b | none => cur
              if opt_truthy cur2 then Except.ok cur2
              else find_soap_body_go xmlDict ks cur2

/-- The complete body search of client.py:126-135, starting from
`soap_body = None`. -/
def find_soap_body (xmlDict : List (String × XVal)) : Except Unit (Option XVal) :=
  find_soap_body_go xmlDict envelope_keys none

/-- The payload scan of client.py:144-158: iterate the body entries in
order; for an entry whose value is a dictionary, return the value under
`"Result"`, else under `"ResponseValue"`, else the whole value when the
entry key contains `"Response"`; otherwise move to the next entry. -/
def find_response_data : List (String × XVal) → Option XVal
  | [] => none
  | (k, v) :: rest =>
      match v with
      | XVal.obj inner =>
          match dict_get inner "Result" with
          | some r => some r
          | none =>
              match dict_get inner "ResponseValue" with
              | some r => some r
              | none =>
                  if py_endswith k "Response" || list_contains_sub k.data "Response".data
                  then some (XVal.obj inner)
                  else find_response_data rest
      | _ => find_response_data rest

/-- The fallback value `{"raw_response": xml_response}` of client.py:140/166/172. -/
def raw_fallback (xmlResponse : String) : XVal :=
  XVal.obj [("raw_response", XVal.str xmlResponse)]

/-- client.py:126-166 given a successfully parsed top-level dictionary.
A raised exception anywhere (body search, or `.items()` on a non-dictionary
body) is caught by the handler of client.py:167-172 and becomes
`raw_fallback`. -/
def parse_body_from_dict (xmlResponse : String) (xmlDict : List (String × XVal)) : XVal :=
  match find_soap_body xmlDict with
  | Except.error _ => raw_fallback xmlResponse
  | Except.ok cur =>
      if opt_truthy cur then
        match cur with
        | some (XVal.obj kvs) =>
            match find_response_data kvs with
            | some rd => if XVal.truthy rd then rd else XVal.obj kvs
            | none => XVal.obj kvs
        | _ => raw_fallback xmlResponse
      else raw_fallback xmlResponse

/-- `SherpaClient._parse_soap_response` (client.py:107-172).  The outcome of
`xmltodict.parse` is passed in: `none` models a parse exception, which the
handler converts to the fallback mapping. -/
def parse_soap_response (xmlResponse : String)
    (parsed : Option (List (String × XVal))) : XVal :=
  match parsed with
  | none => raw_fallback xmlResponse
  | some d => parse_body_from_dict xmlResponse d

/-- An HTTP response as seen by the client: status code and body text. -/
structure HttpResponse where
  status_code : Nat
  text : String

/-- `requests.Response.raise_for_status` (called at client.py:93): raises an
`HTTPError` exactly for status codes 400-499 (client error) and 500-599
(server error); all other codes pass. -/
def raise_for_status (r : HttpResponse) : Except String Unit :=
  if 400 ≤ r.status_code ∧ r.status_code < 500 then Except.error "Client Error"
  else if 500 ≤ r.status_code ∧ r.status_code < 600 then Except.error "Server Error"
  else Except.ok ()

/-- Whether an `Except` value is an error. -/
def except_is_error {ε α : Type} : Except ε α → Bool
  | Except.error _ => true
  | Except.ok _ => false

/-- One attempt of the body of `call_soap_service` (client.py:72-105): the
POST either raises (network error) or yields a response; `raise_for_status`
may raise; otherwise the response text is parsed (which never raises).
`parse_of` gives the `xmltodict.parse` outcome for a given body text. -/
def call_attempt (postResult : Except String HttpResponse)
    (parse_of : String → Option (List (String × XVal))) : Except String XVal :=
  match postResult with
  | Except.error e => Except.error e
  | Except.ok r =>
      match raise_for_status r with
      | Except.error e => Except.error e
      | Except.ok _ => Except.ok (parse_soap_response r.text (parse_of r.text))

/-- `tenacity.wait_exponential(multiplier, min, max)` evaluated after the
`n`-th failed attempt: `multiplier * 2 ^ n` clamped into `[min, max]`. -/
def wait_exponential (multiplier mn mx n : Nat) : Nat :=
  Nat.max mn (Nat.min (multiplier * 2 ^ n) mx)

/-- An error as observed by a caller of a tenacity-decorated function:
either an exception raised directly (`exc`), or a `tenacity.RetryError`
wrapping the last attempt's exception (`retryError`), which is what
tenacity raises on exhaustion when `reraise` is left `False`. -/
inductive RaisedError (E : Type) where
  | exc : E → RaisedError E
  | retryError : E → RaisedError E

/-- The decorated `SherpaClient.call_soap_service` (client.py:45-105):
`@retry(stop=stop_after_attempt(3), wait=wait_exponential(multiplier=1,
min=4, max=10))` runs the attempt up to three times, waiting the clamped
exponential time between attempts.  When the third attempt also fails,
tenacity (with its default `reraise=False`) raises `RetryError(fut) from
fut.exception()`, i.e. a wrapper around the last exception, modelled as
`RaisedError.retryError`.  Returns the final outcome together with the
waits performed. -/
def call_soap_service {E A : Type} (attempt : Nat → Except E A) :
    Except (RaisedError E) A × List Nat :=
  match attempt 1 with
  | Except.ok a => (Except.ok a, [])
  | Except.error _ =>
      match attempt 2 with
      | Except.ok a => (Except.ok a, [wait_exponential 1 4 10 1])
      | Except.error _ =>
          match attempt 3 with
          | Except.ok a =>
              (Except.ok a, [wait_exponential 1 4 10 1, wait_exponential 1 4 10 2])
          | Except.error e3 =>
              (Except.error (RaisedError.retryError e3),
               [wait_exponential 1 4 10 1, wait_exponential 1 4 10 2])

/-- All non-overlapping occurrences of `"?wsdl"` removed, left to right:
Python `base_url.replace("?wsdl", "")` at client.py:68. -/
def stripWsdl : List Char → List Char
  | '?' :: 'w' :: 's' :: 'd' :: 'l' :: rest => stripWsdl rest
  | c :: rest => c :: stripWsdl rest
  | [] => []

/-- The portion before the first `'?'`: Python `url.split("?")[0]` at
client.py:68. -/
def takeBeforeQ : List Char → List Char
  | [] => []
  | '?' :: _ => []
  | c :: rest => c :: takeBeforeQ rest

/-- The first line of the URL cleanup at client.py:68:
`self.auth.base_url.replace("?wsdl", "").split("?")[0]`. -/
def query_stripped (base_url : String) : String :=
  String.mk (takeBeforeQ (stripWsdl base_url.data))

/-- The URL derivation of client.py:67-70: strip `"?wsdl"` occurrences and
the query string, then append `"/Sherpa.asmx"` unless the result already
ends with `".asmx"`. -/
def derive_url (base_url : String) : String :=
  let url := query_stripped base_url
  if py_endswith url ".asmx" then url else url ++ "/Sherpa.asmx"

/-- Python `s.removesuffix("?wsdl")`: drop one trailing `"?wsdl"` marker. -/
def strip_trailing_wsdl (s : String) : String :=
  if "?wsdl".data.isSuffixOf s.data
  then String.mk (s.data.take (s.data.length - 5))
  else s

/-- The URL derivation as claim C7 words it: remove a trailing `"?wsdl"`
marker and the query string, then append `"/Sherpa.asmx"` if and only if the
query-stripped base does not already end in `"/Sherpa.asmx"`. -/
def derive_url_spec (base_url : String) : String :=
  let stripped := String.mk (takeBeforeQ (strip_trailing_wsdl base_url).data)
  if py_endswith stripped "/Sherpa.asmx" then stripped
  else stripped ++ "/Sherpa.asmx"

/-- The session headers installed at construction (client.py:36-42). -/
def init_headers : List (String × String) :=
  [("Content-Type", "application/soap+xml; charset=utf-8"),
   ("User-Agent", "PostmanRuntime/7.32.3"),
   ("Accept", "*/*"),
   ("Accept-Encoding", "gzip, deflate, br"),
   ("Connection", "keep-alive")]

/-- Python `dict.update` with a single key: overwrite in place when the key
exists, otherwise append the new entry. -/
def dict_update (d : List (String × String)) (k v : String) :
    List (String × String) :=
  if d.any (fun p => p.1 == k) then
    d.map (fun p => if p.1 == k then (k, v) else p)
  else d ++ [(k, v)]

/-- The `SOAPAction` value set at client.py:63-65: the service URL wrapped
in literal double quotes, `f'"http://sherpa.sherpaan.nl/{service_name}"'`. -/
def soap_action_value (service_name : String) : String :=
  "\"http://sherpa.sherpaan.nl/" ++ service_name ++ "\""

/-- The session headers after `call_soap_service` updates them
(client.py:63-65). -/
def call_headers (service_name : String) : List (String × String) :=
  dict_update init_headers "SOAPAction" (soap_action_value service_name)

/-- Header lookup by exact name. -/
def hdr_get (d : List (String × String)) (k : String) : Option String :=
  (d.find? (fun p => p.1 == k)).map (fun p => p.2)

/-- The body search as amended claim C5 describes it: try envelope keys in
order; for each one present, take the first present body key's value; accept
it only when truthy, otherwise keep trying later envelope keys.  `ok none`
means no truthy body was found anywhere. -/
def search_first_truthy (d : List (String × XVal)) :
    List String → Except Unit (Option XVal)
  | [] => Except.ok none
  | k :: ks =>
      match dict_get d k with
      | none => search_first_truthy d ks
      | some env =>
          match first_present env body_keys with
          | Except.error e => Except.error e
          | Except.ok none => search_first_truthy d ks
          | Except.ok (some b) =>
              if XVal.truthy b then Except.ok (some b)
              else search_first_truthy d ks

/-- The payload checks applied to a single body entry `(k, v)`: the value
under `"Result"`, else under `"ResponseValue"`, else the whole value when the
entry key contains `"Response"`; `none` when `v` is not a dictionary or none
of the checks match. -/
def scan_entry (k : String) (v : XVal) : Option XVal :=
  match v with
  | XVal.obj inner =>
      match dict_get inner "Result" with
      | some r => some r
      | none =>
          match dict_get inner "ResponseValue" with
          | some r => some r
          | none =>
              if py_endswith k "Response" || list_contains_sub k.data "Response".data
              then some (XVal.obj inner)
              else none
  | _ => none

/-- The first entry of the body whose value is a dictionary. -/
def find_first_mapping_entry : List (String × XVal) → Option (String × XVal)
  | [] => none
  | (k, XVal.obj inner) :: _ => some (k, XVal.obj inner)
  | _ :: rest => find_first_mapping_entry rest

/-- The payload scan as claim C6 words it: the checks are applied only to
the first entry whose value is a dictionary. -/
def find_response_data_spec (kvs : List (String × XVal)) : Option XVal :=
  (find_first_mapping_entry kvs).bind (fun p => scan_entry p.1 p.2)

theorem search_first_truthy_truthy (d : List (String × XVal)) :
    ∀ (ks : List String) (b : XVal),
      search_first_truthy d ks = Except.ok (some b) → XVal.truthy b = true := by
  intro ks
  induction ks with
  | nil => intro b h; simp [search_first_truthy] at h
  | cons k ks ih =>
      intro b h
      cases hdk : dict_get d k with
      | none =>
          simp only [search_first_truthy, hdk] at h
          exact ih b h
      | some env =>
          simp only [search_first_truthy, hdk] at h
          cases hf : first_present env body_keys with
          | error e => simp only [hf] at h; exact absurd h (by simp)
          | ok found =>
              simp only [hf] at h
              cases found with
              | none => exact ih b h
              | some b2 =>
                  cases ht : XVal.truthy b2 with
                  | true =>
                      simp only [ht, if_true] at h
                      cases h
                      exact ht
                  | false =>
                      simp only [ht, Bool.false_eq_true, if_false] at h
                      exact ih b h

theorem find_soap_body_go_spec (d : List (String × XVal)) :
    ∀ (ks : List String) (cur : Option XVal), opt_truthy cur = false →
      ((∀ b, search_first_truthy d ks = Except.ok (some b) →
          find_soap_body_go d ks cur = Except.ok (some b)) ∧
       (search_first_truthy d ks = Except.ok none →
          ∃ c, find_soap_body_go d ks cur = Except.ok c ∧ opt_truthy c = false) ∧
       (search_first_truthy d ks = Except.error () →
          find_soap_body_go d ks cur = Except.error ())) := by
  intro ks
  induction ks with
  | nil =>
      intro cur hcur
      refine ⟨?_, ?_, ?_⟩
      · intro b h; simp [search_first_truthy] at h
      · intro _; exact ⟨cur, rfl, hcur⟩
      · intro h; simp [search_first_truthy] at h
  | cons k ks ih =>
      intro cur hcur
      cases hdk : dict_get d k with
      | none =>
          simpa only [search_first_truthy, find_soap_body_go, hdk] using ih cur hcur
      | some env =>
          cases hf : first_present env body_keys with
          | error e =>
              cases e
              simp only [search_first_truthy, find_soap_body_go, hdk, hf]
              refine ⟨?_, ?_, ?_⟩
              · intro b h; exact h
              · intro h; exact absurd h (by simp)
              · intro _; trivial
          | ok found =>
              cases found with
              | none =>
                  simpa only [search_first_truthy, find_soap_body_go, hdk, hf, hcur,
                    Bool.false_eq_true, if_false] using ih cur hcur
              | some b2 =>
                  cases ht : XVal.truthy b2 with
                  | true =>
                      simp only [search_first_truthy, find_soap_body_go, hdk, hf, ht,
                        opt_truthy, if_true]
                      refine ⟨?_, ?_, ?_⟩
                      · intro b h; exact h
                      · intro h; exact absurd h (by simp)
                      · intro h; exact absurd h (by simp)
                  | false =>
                      simpa only [search_first_truthy, find_soap_body_go, hdk, hf, ht,
                        opt_truthy, Bool.false_eq_true, if_false]
                        using ih (some b2) (by simp [opt_truthy, ht])


theorem find_response_data_cons (k : String) (v : XVal) (rest : List (String × XVal)) :
    find_response_data ((k, v) :: rest) =
      (match scan_entry k v with
       | some r => some r
       | none => find_response_data rest) := by
  cases v with
  | obj inner =>
      simp only [find_response_data, scan_entry]
      cases h1 : dict_get inner "Result" with
      | some r => simp only [h1]
      | none =>
          simp only [h1]
          cases h2 : dict_get inner "ResponseValue" with
          | some r => simp only [h2]
          | none =>
              simp only [h2]
              cases h3 : (py_endswith k "Response" || list_contains_sub k.data "Response".data) with
              | true => simp only [h3, if_true]
              | false => simp only [h3, Bool.false_eq_true, if_false]
  | null => rfl
  | str s => rfl
  | list l => rfl

theorem find_response_data_eq_findSome (kvs : List (String × XVal)) :
    find_response_data kvs = kvs.findSome? (fun p => scan_entry p.1 p.2) := by
  induction kvs with
  | nil => rfl
  | cons p rest ih =>
      obtain ⟨k, v⟩ := p
      rw [find_response_data_cons, List.findSome?_cons]
      cases hs : scan_entry k v with
      | some r => simp only [hs]
      | none => simp only [hs]; exact ih

theorem endswith_append_sherpa (s : String) :
    py_endswith (s ++ "/Sherpa.asmx") ".asmx" = true := by
  rw [py_endswith, String.data_append]
  rw [List.isSuffixOf_iff_suffix]
  exact List.IsSuffix.trans (by decide) (List.suffix_append _ _)

theorem parse_raw_of_find_error (s : String) (d : List (String × XVal))
    (h : find_soap_body d = Except.error ()) :
    parse_soap_response s (some d) = raw_fallback s := by
  simp only [parse_soap_response, parse_body_from_dict, h]

theorem parse_raw_of_falsy (s : String) (d : List (String × XVal)) (b : Option XVal)
    (h1 : find_soap_body d = Except.ok b) (h2 : opt_truthy b = false) :
    parse_soap_response s (some d) = raw_fallback s := by
  simp only [parse_soap_response, parse_body_from_dict, h1, h2, Bool.false_eq_true,
    if_false]

theorem parse_raw_of_nonmapping (s : String) (d : List (String × XVal)) (b : XVal)
    (h1 : find_soap_body d = Except.ok (some b)) (h2 : XVal.truthy b = true)
    (h3 : XVal.is_mapping b = false) :
    parse_soap_response s (some d) = raw_fallback s := by
  simp only [parse_soap_response, parse_body_from_dict, h1, opt_truthy, h2, if_true]
  cases b with
  | obj kvs => simp [XVal.is_mapping] at h3
  | null => rfl
  | str s2 => rfl
  | list l => rfl

theorem parse_of_mapping_body (s : String) (d : List (String × XVal))
    (kvs : List (String × XVal))
    (h1 : find_soap_body d = Except.ok (some (XVal.obj kvs)))
    (h2 : XVal.truthy (XVal.obj kvs) = true) :
    parse_soap_response s (some d) =
      (match find_response_data kvs with
       | some rd => if XVal.truthy rd then rd else XVal.obj kvs
       | none => XVal.obj kvs) := by
  simp only [parse_soap_response, parse_body_from_dict, h1, opt_truthy, h2, if_true]


/-- Concrete parsed response whose `Result` element is empty (`<Result/>`,
parsed to `None` by `xmltodict`). -/
def null_result_dict : List (String × XVal) :=
  [("soap:Envelope", XVal.obj [("soap:Body",
     XVal.obj [("GetStatusResponse", XVal.obj [("Result", XVal.null)])])])]

/-- C1 (corrected): on an HTTP 200 response whose body holds
`soap:Body` → `GetStatusResponse` → `Result` with `Result` empty (`None`),
the unwrapper does NOT return the `Result` value: it returns the whole body
mapping instead, refuting the claim's "including when that value is empty or
null". -/
theorem c1_falsy_result_counterexample :
    call_attempt (Except.ok ⟨200, "x"⟩) (fun _ => some null_result_dict)
      = Except.ok (XVal.obj [("GetStatusResponse", XVal.obj [("Result", XVal.null)])]) ∧
    XVal.obj [("GetStatusResponse", XVal.obj [("Result", XVal.null)])] ≠ XVal.null :=
  ⟨rfl, fun h => XVal.noConfusion h⟩

/-- C1 (amended): on an HTTP 200 response whose parsed body contains a
`soap:Body` whose first entry is a mapping containing `"Result"`, the call
returns exactly the value under `"Result"` provided that value is truthy
(non-empty and non-null); a falsy `Result` makes the whole body be returned
instead. -/
theorem c1_result_unwrap_amended (s k : String)
    (inner rest : List (String × XVal)) (r : XVal)
    (pf : String → Option (List (String × XVal)))
    (hpf : pf s = some [("soap:Envelope", XVal.obj [("soap:Body",
        XVal.obj ((k, XVal.obj inner) :: rest))])])
    (hr : dict_get inner "Result" = some r)
    (ht : XVal.truthy r = true) :
    call_attempt (Except.ok ⟨200, s⟩) pf = Except.ok r := by
  simp only [call_attempt, raise_for_status]
  norm_num
  rw [hpf]
  simp only [parse_soap_response, parse_body_from_dict, find_soap_body,
    find_soap_body_go, envelope_keys, body_keys, first_present, py_in, py_index,
    dict_get, opt_truthy, find_response_data, hr, ht]
  simp [hr, ht, find_response_data]
  intro hfalse
  simp [XVal.truthy] at hfalse


/-- Witness for C1 (amended) at a concrete response: `Result` holds the
truthy string `"ok"`, so the call returns it. -/
theorem c1_result_unwrap_amended_witness :
    call_attempt (Except.ok ⟨200, "xml"⟩)
        (fun _ => some [("soap:Envelope", XVal.obj [("soap:Body",
          XVal.obj [("GetStatusResponse", XVal.obj [("Result", XVal.str "ok")])])])])
      = Except.ok (XVal.str "ok") :=
  c1_result_unwrap_amended "xml" "GetStatusResponse" [("Result", XVal.str "ok")] []
    (XVal.str "ok") _ rfl rfl rfl

/-- C2 (counterexample): when `Result` holds the string `"ok"`, the parsed
value returned by `_parse_soap_response` is that string, not a mapping,
refuting "returns a mapping" for every input. -/
theorem c2_nonmapping_counterexample :
    parse_soap_response "x" (some [("soap:Envelope", XVal.obj [("soap:Body",
        XVal.obj [("GetStatusResponse", XVal.obj [("Result", XVal.str "ok")])])])])
      = XVal.str "ok" ∧
    XVal.is_mapping (XVal.str "ok") = false :=
  ⟨rfl, rfl⟩

/-- C2 (amended): `_parse_soap_response` is a total function (it never
raises); a parse exception, an exception raised during the body search, and
a truthy non-mapping body (whose `.items()` call raises) all degrade to the
fallback mapping with the original text; but the successful payload may be
a non-mapping value. -/
theorem c2_never_raises_amended (s : String) :
    parse_soap_response s none = raw_fallback s ∧
    (∀ d, find_soap_body d = Except.error () →
        parse_soap_response s (some d) = raw_fallback s) ∧
    (∀ d b, find_soap_body d = Except.ok (some b) → XVal.truthy b = true →
        XVal.is_mapping b = false →
        parse_soap_response s (some d) = raw_fallback s) := by
  refine ⟨rfl, ?_, ?_⟩
  · intro d h
    exact parse_raw_of_find_error s d h
  · intro d b h1 h2 h3
    exact parse_raw_of_nonmapping s d b h1 h2 h3

/-- Witness for C2 (amended): a `soap:Envelope` whose value is `None` makes
the membership test `"soap:Body" in envelope` raise `TypeError`; the
exception is converted to the fallback mapping. -/
theorem c2_never_raises_amended_witness :
    parse_soap_response "x" (some [("soap:Envelope", XVal.null)]) = raw_fallback "x" :=
  (c2_never_raises_amended "x").2.1 [("soap:Envelope", XVal.null)] rfl

/-- C3 (counterexample): when all three attempts fail with the same
exception, the caller does not receive that exception: tenacity (with its
default `reraise=False`) raises a `RetryError` wrapping it, a different
error object — e.g. an `except HTTPError` around the call would not catch
the exhaustion. -/
theorem c3_retry_error_counterexample :
    (call_soap_service (fun _ => (Except.error "boom" : Except String Nat))).1
      = Except.error (RaisedError.retryError "boom") ∧
    (RaisedError.retryError "boom" : RaisedError String) ≠ RaisedError.exc "boom" :=
  ⟨rfl, fun h => RaisedError.noConfusion h⟩

/-- C3 (amended): the decorated `call_soap_service` retries the whole
send-and-validate operation on any exception, making at most 3 attempts
total; it returns the first successful attempt's parsed result; on third
failure the caller receives a `tenacity.RetryError` wrapping the last
exception (not the last exception itself, since `reraise` is left `False`);
every wait of the backoff schedule lies between 4 and 10; and the outcome
depends only on the first three attempts. -/
theorem c3_retry_behavior_amended {E A : Type} (attempt : Nat → Except E A) :
    (∀ a, attempt 1 = Except.ok a → (call_soap_service attempt).1 = Except.ok a) ∧
    (∀ e a, attempt 1 = Except.error e → attempt 2 = Except.ok a →
        (call_soap_service attempt).1 = Except.ok a) ∧
    (∀ e1 e2 a, attempt 1 = Except.error e1 → attempt 2 = Except.error e2 →
        attempt 3 = Except.ok a → (call_soap_service attempt).1 = Except.ok a) ∧
    (∀ e1 e2 e3, attempt 1 = Except.error e1 → attempt 2 = Except.error e2 →
        attempt 3 = Except.error e3 →
        (call_soap_service attempt).1 = Except.error (RaisedError.retryError e3)) ∧
    (∀ w ∈ (call_soap_service attempt).2, 4 ≤ w ∧ w ≤ 10) ∧
    (∀ g : Nat → Except E A, attempt 1 = g 1 → attempt 2 = g 2 → attempt 3 = g 3 →
        call_soap_service attempt = call_soap_service g) := by
  refine ⟨?_, ?_, ?_, ?_, ?_, ?_⟩
  · intro a h; simp [call_soap_service, h]
  · intro e a h1 h2; simp [call_soap_service, h1, h2]
  · intro e1 e2 a h1 h2 h3; simp [call_soap_service, h1, h2, h3]
  · intro e1 e2 e3 h1 h2 h3; simp [call_soap_service, h1, h2, h3]
  · cases h1 : attempt 1 with
    | ok a => simp [call_soap_service, h1]
    | error e =>
        cases h2 : attempt 2 with
        | ok a => simp [call_soap_service, h1, h2, wait_exponential]
        | error e2 =>
            cases h3 : attempt 3 with
            | ok a => simp [call_soap_service, h1, h2, h3, wait_exponential]
            | error e3 => simp [call_soap_service, h1, h2, h3, wait_exponential]
  · intro g h1 h2 h3
    simp only [call_soap_service, h1, h2, h3]

/-- Witness for C3 (amended) at a concrete attempt sequence: two failures
followed by a success yield the success. -/
theorem c3_retry_behavior_amended_witness :
    (call_soap_service (fun n => if n = 1 then Except.error "e1"
        else if n = 2 then Except.error "e2" else Except.ok 7)).1
      = Except.ok 7 :=
  (c3_retry_behavior_amended _).2.2.1 "e1" "e2" 7 rfl rfl rfl

/-- C4 (counterexample): a 301 response (non-2xx) does not raise: requests'
`raise_for_status` only raises for 4xx/5xx, so the attempt succeeds and the
body is parsed, refuting "any non-2xx status raises". -/
theorem c4_redirect_counterexample :
    except_is_error (call_attempt (Except.ok ⟨301, "<a/>"⟩) (fun _ => none)) = false ∧
    ¬(200 ≤ 301 ∧ 301 < 300) :=
  ⟨rfl, by decide⟩

/-- C4 (amended): an attempt with a delivered HTTP response raises if and
only if the status code is in the 4xx or 5xx range; 1xx and 3xx statuses,
though not 2xx, do not raise, even with a well-formed XML body. -/
theorem c4_raise_iff_4xx_5xx (r : HttpResponse)
    (pf : String → Option (List (String × XVal))) :
    except_is_error (call_attempt (Except.ok r) pf)
      = decide (400 ≤ r.status_code ∧ r.status_code < 600) := by
  simp only [call_attempt, raise_for_status]
  split_ifs with h1 h2 <;> simp [except_is_error] <;> omega


/-- The parsed dictionary used to refute claim C5: the first present
envelope key `"soap:Envelope"` holds no body key, but the code continues to
the `"Envelope"` key and extracts a body there, while the claim's
"take the first envelope present" reading demands the raw fallback. -/
def two_envelope_dict : List (String × XVal) :=
  [("soap:Envelope", XVal.obj [("x", XVal.str "1")]),
   ("Envelope", XVal.obj [("Body",
     XVal.obj [("r", XVal.obj [("Result", XVal.str "2")])])])]

/-- C5 (counterexample): `"soap:Envelope"` is the first envelope key
present and contains no body key, yet the unwrapper does not return the raw
fallback: it finds the body under the later `"Envelope"` key and returns
its `Result`. -/
theorem c5_envelope_order_counterexample :
    dict_get two_envelope_dict "soap:Envelope" = some (XVal.obj [("x", XVal.str "1")]) ∧
    first_present (XVal.obj [("x", XVal.str "1")]) body_keys = Except.ok none ∧
    parse_soap_response "orig" (some two_envelope_dict) = XVal.str "2" ∧
    XVal.str "2" ≠ raw_fallback "orig" :=
  ⟨rfl, rfl, rfl, fun h => XVal.noConfusion h⟩

/-- C5 (amended): the unwrapper tries the envelope keys in order and, for
each present one, the body keys in order taking the first present; it stops
at the first truthy body value so obtained, continuing past envelopes that
yield no body key or only a falsy body value; when no truthy body exists
(or an exception occurs) it returns the raw fallback. -/
theorem c5_body_search_amended (s : String) (d : List (String × XVal)) :
    (∀ b, search_first_truthy d envelope_keys = Except.ok (some b) →
        find_soap_body d = Except.ok (some b) ∧ XVal.truthy b = true) ∧
    (search_first_truthy d envelope_keys = Except.ok none →
        parse_soap_response s (some d) = raw_fallback s) ∧
    (search_first_truthy d envelope_keys = Except.error () →
        parse_soap_response s (some d) = raw_fallback s) := by
  have H := find_soap_body_go_spec d envelope_keys none rfl
  refine ⟨?_, ?_, ?_⟩
  · intro b h
    exact ⟨H.1 b h, search_first_truthy_truthy d envelope_keys b h⟩
  · intro h
    obtain ⟨c, hc, hcf⟩ := H.2.1 h
    exact parse_raw_of_falsy s d c hc hcf
  · intro h
    exact parse_raw_of_find_error s d (H.2.2 h)

/-- Witness for C5 (amended) at a concrete dictionary with a truthy body
under the plain `"Envelope"`/`"Body"` spelling. -/
theorem c5_body_search_amended_witness :
    find_soap_body [("Envelope", XVal.obj [("Body", XVal.obj [("R", XVal.str "v")])])]
        = Except.ok (some (XVal.obj [("R", XVal.str "v")])) ∧
    XVal.truthy (XVal.obj [("R", XVal.str "v")]) = true :=
  (c5_body_search_amended "x"
      [("Envelope", XVal.obj [("Body", XVal.obj [("R", XVal.str "v")])])]).1 _ rfl

/-- A body whose first mapping-valued entry yields no payload but whose
second entry holds a `Result`. -/
def unfruitful_first_body : List (String × XVal) :=
  [("A", XVal.obj [("X", XVal.str "1")]),
   ("B", XVal.obj [("Result", XVal.str "2")])]

/-- A full parsed response wrapping `unfruitful_first_body`. -/
def unfruitful_first_dict : List (String × XVal) :=
  [("soap:Envelope", XVal.obj [("soap:Body", XVal.obj unfruitful_first_body)])]

/-- C6 (counterexample): the first entry whose value is a mapping (`"A"`)
matches none of the checks, so under the claim's reading no payload is
located and the body should be returned unchanged; the code instead scans
on and returns the `Result` of the second entry. -/
theorem c6_first_entry_counterexample :
    find_response_data_spec unfruitful_first_body = none ∧
    parse_soap_response "r" (some unfruitful_first_dict) = XVal.str "2" ∧
    XVal.str "2" ≠ XVal.obj unfruitful_first_body :=
  ⟨rfl, rfl, fun h => XVal.noConfusion h⟩

/-- C6 (amended): given a truthy mapping-valued body, the unwrapper scans
ALL entries in order, applying the `Result` / `ResponseValue` /
`Response`-in-key checks to each mapping-valued entry, and returns the
first match across entries when it is truthy, else the body unchanged; an
unfruitful mapping-valued entry is skipped, not terminal. -/
theorem c6_scan_amended (s : String) (d kvs : List (String × XVal))
    (h1 : find_soap_body d = Except.ok (some (XVal.obj kvs)))
    (h2 : XVal.truthy (XVal.obj kvs) = true) :
    parse_soap_response s (some d) =
      (match kvs.findSome? (fun p => scan_entry p.1 p.2) with
       | some v => if XVal.truthy v then v else XVal.obj kvs
       | none => XVal.obj kvs) ∧
    (∀ (k : String) (inner rest2 : List (String × XVal)),
        dict_get inner "Result" = none → dict_get inner "ResponseValue" = none →
        (py_endswith k "Response" || list_contains_sub k.data "Response".data) = false →
        find_response_data ((k, XVal.obj inner) :: rest2) = find_response_data rest2) := by
  constructor
  · rw [parse_of_mapping_body s d kvs h1 h2, find_response_data_eq_findSome]
  · intro k inner rest2 g1 g2 g3
    simp only [find_response_data_cons, scan_entry, g1, g2, g3,
      Bool.false_eq_true, if_false]

/-- Witness for C6 (amended) at the concrete two-entry body: the scan
continues past the unfruitful first entry and returns `"2"`. -/
theorem c6_scan_amended_witness :
    parse_soap_response "r" (some unfruitful_first_dict) = XVal.str "2" :=
  ((c6_scan_amended "r" unfruitful_first_dict unfruitful_first_body rfl rfl).1).trans rfl


/-- C7 (counterexample): for a base URL already ending in `".asmx"` but not
in `"/Sherpa.asmx"`, the code does not append the suffix while the claim
demands it; and a non-trailing `"?wsdl"` is removed from the middle of the
URL, which the claim's "trailing marker" reading does not do. -/
theorem c7_url_suffix_counterexample :
    derive_url "http://host/Service.asmx" = "http://host/Service.asmx" ∧
    derive_url_spec "http://host/Service.asmx"
      = "http://host/Service.asmx/Sherpa.asmx" ∧
    derive_url "http://host/Service.asmx" ≠ derive_url_spec "http://host/Service.asmx" ∧
    derive_url "http://h?wsdlx" = "http://hx/Sherpa.asmx" ∧
    derive_url_spec "http://h?wsdlx" = "http://h/Sherpa.asmx" :=
  ⟨rfl, rfl, by decide, rfl, rfl⟩

/-- C7 (amended): the target URL is the base URL with every occurrence of
`"?wsdl"` removed and truncated at the first remaining `"?"`, with
`"/Sherpa.asmx"` appended if and only if the stripped base does not already
end in `".asmx"`; consequently the target always ends in `".asmx"`. -/
theorem c7_url_derivation_amended (base : String) :
    (py_endswith (query_stripped base) ".asmx" = true →
        derive_url base = query_stripped base) ∧
    (py_endswith (query_stripped base) ".asmx" = false →
        derive_url base = query_stripped base ++ "/Sherpa.asmx") ∧
    py_endswith (derive_url base) ".asmx" = true := by
  refine ⟨?_, ?_, ?_⟩
  · intro h; simp [derive_url, h]
  · intro h; simp [derive_url, h]
  · cases h : py_endswith (query_stripped base) ".asmx" with
    | true => simp [derive_url, h]
    | false =>
        simp only [derive_url, h, Bool.false_eq_true, if_false]
        exact endswith_append_sherpa _

/-- Witness for C7 (amended) at a concrete base URL carrying a `"?wsdl"`
query marker. -/
theorem c7_url_derivation_amended_witness :
    derive_url "http://host/service?wsdl"
      = query_stripped "http://host/service?wsdl" ++ "/Sherpa.asmx" :=
  (c7_url_derivation_amended "http://host/service?wsdl").2.1 rfl

/-- C8 (confirmed): each call updates the session `SOAPAction` header to
the quoted action URL `"http://sherpa.sherpaan.nl/<service_name>"` (the
double quotes are part of the header value, as the f-string at
client.py:64 writes them) and leaves every header configured at
construction unchanged. -/
theorem c8_soap_action_header (s : String) :
    hdr_get (call_headers s) "SOAPAction"
      = some ("\"http://sherpa.sherpaan.nl/" ++ s ++ "\"") ∧
    ∀ k, k ≠ "SOAPAction" → hdr_get (call_headers s) k = hdr_get init_headers k := by
  constructor
  · rfl
  · intro k hk
    have hne : ("SOAPAction" == k) = false := by
      simp only [beq_eq_false_iff_ne]
      exact fun h => hk h.symm
    have hcall : call_headers s = init_headers ++ [("SOAPAction", soap_action_value s)] := rfl
    rw [hcall]
    simp only [hdr_get, List.find?_append]
    cases h : List.find? (fun p => p.1 == k) init_headers with
    | some p => simp [h]
    | none => simp [h, List.find?, hne]

/-- Witness for C8 at the service name `"GetStatus"` and the header
`"Content-Type"`. -/
theorem c8_soap_action_header_witness :
    hdr_get (call_headers "GetStatus") "SOAPAction"
      = some "\"http://sherpa.sherpaan.nl/GetStatus\"" ∧
    hdr_get (call_headers "GetStatus") "Content-Type"
      = hdr_get init_headers "Content-Type" :=
  ⟨(c8_soap_action_header "GetStatus").1,
   (c8_soap_action_header "GetStatus").2 "Content-Type" (by decide)⟩

/-- C9 (confirmed): when the payload located by the body scan is falsy
(`None` from an empty element, an empty mapping or an empty string), the
unwrapper discards it and returns the entire body mapping; and when the
body is truthy but not a mapping, iterating `.items()` raises and the raw
fallback is returned. -/
theorem c9_falsy_payload_returns_body (s : String) (d : List (String × XVal)) :
    (∀ kvs v, find_soap_body d = Except.ok (some (XVal.obj kvs)) →
        XVal.truthy (XVal.obj kvs) = true →
        find_response_data kvs = some v → XVal.truthy v = false →
        parse_soap_response s (some d) = XVal.obj kvs) ∧
    (∀ b, find_soap_body d = Except.ok (some b) → XVal.truthy b = true →
        XVal.is_mapping b = false →
        parse_soap_response s (some d) = raw_fallback s) := by
  constructor
  · intro kvs v h1 h2 h3 h4
    rw [parse_of_mapping_body s d kvs h1 h2, h3]
    simp [h4]
  · intro b h1 h2 h3
    exact parse_raw_of_nonmapping s d b h1 h2 h3

/-- Witness for C9 at the concrete response whose `Result` element is
empty: the whole body mapping comes back. -/
theorem c9_falsy_payload_returns_body_witness :
    parse_soap_response "x" (some null_result_dict)
      = XVal.obj [("GetStatusResponse", XVal.obj [("Result", XVal.null)])] :=
  (c9_falsy_payload_returns_body "x" null_result_dict).1
    [("GetStatusResponse", XVal.obj [("Result", XVal.null)])] XVal.null rfl rfl rfl rfl

/-- C10 (confirmed): whenever the body-search loop finishes with a falsy
`soap_body` — in particular when a body key is present but its value is
falsy, such as an empty `<soap:Body/>` parsed to `None` — the unwrapper
returns the raw fallback; presence of the key alone is not sufficient. -/
theorem c10_falsy_body_raw_response (s : String) (d : List (String × XVal))
    (b : Option XVal) (h1 : find_soap_body d = Except.ok b)
    (h2 : opt_truthy b = false) :
    parse_soap_response s (some d) = raw_fallback s :=
  parse_raw_of_falsy s d b h1 h2

/-- A parsed response whose `soap:Body` key is present but holds `None`
(an empty `<soap:Body/>` element). -/
def empty_body_dict : List (String × XVal) :=
  [("soap:Envelope", XVal.obj [("soap:Body", XVal.null)])]

/-- Witness for C10: the body key is present with value `None`, and the
raw fallback is returned. -/
theorem c10_falsy_body_raw_response_witness :
    parse_soap_response "x" (some empty_body_dict) = raw_fallback "x" :=
  c10_falsy_body_raw_response "x" empty_body_dict (some XVal.null) rfl rfl


end Sherpaan
